import Mathlib

/-!
Verification development for the Wildfire-Protection backend.

The numeric core of the repository is embedded shallowly:

* `calculate_fire_risk_score` (backend/app/api/fems_endpoints.py) together with
  the discrete risk-level bucketing (backend/app/api/llm_endpoint.py) over `ℚ`,
  with Python `round(x, 2)` modelled as round-half-to-even on rationals and the
  float literal 3.33 idealised as 333/100;
* the plume cone generator (backend/app/api/plume_endpoint.py): emission/loft
  normalisation, the small-fire suppression rule and the plume length/width
  metadata; `math.sqrt`, `math.atan` and the power `f ** 0.9` are modelled over
  `ℝ`, and the WGS84 geodesic forward projection `geod.fwd` and the shapely
  polygon validity test are abstract parameters (they live in external
  libraries, not in this repository);
* the `hours` list validator of `PlumeRequest`;
* the result-cache discipline and the fire-collection/merge loop of
  `collect_wildfire_context` (backend/app/api/wildfire_map_endpoint.py), with
  the network-dependent computation, the haversine distance at the fixed query
  point and the per-detection plume frames as abstract parameters.

Python dictionaries with optional keys are modelled as structures of `Option`
fields; Python `x or default` on floats (which treats 0.0 as missing) is
modelled by `pyOr`.
-/

/-- Round-half-to-even on rationals, modelling Python's builtin `round` to an
integer (banker's rounding). -/
def roundHalfEven (q : ℚ) : ℤ :=
  if q - ⌊q⌋ < 1/2 then ⌊q⌋
  else if 1/2 < q - ⌊q⌋ then ⌊q⌋ + 1
  else if 2 ∣ ⌊q⌋ then ⌊q⌋ else ⌊q⌋ + 1

/-- Python `round(q, 2)`: round to two decimal places, half to even. -/
def round2 (q : ℚ) : ℚ := (roundHalfEven (q * 100) : ℚ) / 100

/-- NFDRS observation fields read by `calculate_fire_risk_score`
(fems_endpoints.py); a `none` field models a key absent from the dict. -/
structure NfdrsData where
  burning_index : Option ℚ
  ignition_component : Option ℚ
  spread_component : Option ℚ
  kbdi : Option ℚ
  one_hr_tl_fuel_moisture : Option ℚ
deriving DecidableEq

/-- Weather observation fields read by `calculate_fire_risk_score`. -/
structure WeatherData where
  wind_speed : Option ℚ
  relative_humidity : Option ℚ
deriving DecidableEq

/-- Embedding of `FEMSFireRiskAPI.calculate_fire_risk_score`
(backend/app/api/fems_endpoints.py, lines 191-227). -/
def calculate_fire_risk_score (nfdrs_data : NfdrsData) (weather_data : WeatherData) : ℚ :=
  let bi := min (nfdrs_data.burning_index.getD 0 / 2) 100
  let ic := nfdrs_data.ignition_component.getD 0
  let sc := min (nfdrs_data.spread_component.getD 0) 100
  let kbdi := nfdrs_data.kbdi.getD 0 / 8
  let fuel_1hr := nfdrs_data.one_hr_tl_fuel_moisture.getD 30
  let fuel_risk := max 0 (100 - fuel_1hr * (333/100))
  let wind := weather_data.wind_speed.getD 0
  let wind_risk := min (wind * 3) 100
  let rh := weather_data.relative_humidity.getD 50
  let rh_risk := max 0 (100 - rh)
  round2 (bi * (25/100) + ic * (20/100) + sc * (15/100) + kbdi * (10/100)
    + fuel_risk * (15/100) + wind_risk * (10/100) + rh_risk * (5/100))

/-- The discrete risk levels used by the repository. -/
inductive RiskLevel where
  | LOW
  | MODERATE
  | HIGH
  | VERY_HIGH
  | EXTREME
deriving DecidableEq

/-- Embedding of the risk-level bucketing applied to the score
(backend/app/api/llm_endpoint.py, lines 175-184, identical to
fems_endpoints.py lines 284-293). -/
def assign_risk_level (risk_score : ℚ) : RiskLevel :=
  if risk_score < 20 then .LOW
  else if risk_score < 40 then .MODERATE
  else if risk_score < 60 then .HIGH
  else if risk_score < 80 then .VERY_HIGH
  else .EXTREME

/-- The spec's own formula for the risk score (spec section 4.2), written from
the spec's words for comparison with `calculate_fire_risk_score`. -/
def risk_score_spec_formula (nfdrs_data : NfdrsData) (weather_data : WeatherData) : ℚ :=
  round2 (min (nfdrs_data.burning_index.getD 0 / 2) 100 * (25/100)
    + nfdrs_data.ignition_component.getD 0 * (20/100)
    + min (nfdrs_data.spread_component.getD 0) 100 * (15/100)
    + nfdrs_data.kbdi.getD 0 / 8 * (10/100)
    + max 0 (100 - nfdrs_data.one_hr_tl_fuel_moisture.getD 30 * (333/100)) * (15/100)
    + min (weather_data.wind_speed.getD 0 * 3) 100 * (10/100)
    + max 0 (100 - weather_data.relative_humidity.getD 50) * (5/100))

/-- The spec's bucketing by edges 20/40/60/80, written from the spec's words. -/
def risk_level_spec_buckets (s : ℚ) : RiskLevel :=
  if s < 20 then .LOW
  else if s < 40 then .MODERATE
  else if s < 60 then .HIGH
  else if s < 80 then .VERY_HIGH
  else .EXTREME

/-- Embedding of `clamp` (backend/app/api/plume_endpoint.py, lines 24-25). -/
def clamp (value mini maxi : ℚ) : ℚ := max mini (min maxi value)

/-- Python `value or default` on an optional float: `None` and `0.0` are both
falsy and replaced by the default. -/
def pyOr (value : Option ℚ) (dflt : ℚ) : ℚ :=
  match value with
  | none => dflt
  | some x => if x = 0 then dflt else x

/-- Result tuple of `compute_emission_factor`. -/
structure EmissionResult where
  emission : ℚ
  bi_norm : ℚ
  fm_norm : ℚ
  frp_norm : ℚ
  area_norm : ℚ
deriving DecidableEq

/-- Embedding of `compute_emission_factor`
(backend/app/api/plume_endpoint.py, lines 35-51). -/
def compute_emission_factor (burning_index one_hr_fm viirs_frp area_m2 : Option ℚ)
    (emission_multiplier : ℚ) : EmissionResult :=
  let bi_norm := clamp (pyOr burning_index 0 / 200) 0 1
  let fm_norm := 1 - clamp (pyOr one_hr_fm 30 / 100) 0 1
  let frp_norm := clamp (pyOr viirs_frp 0 / 500) 0 1
  let area_norm := clamp (pyOr area_m2 0 / 1000000) 0 1
  let emission_raw := (4/10) * bi_norm + (25/100) * fm_norm
    + (25/100) * frp_norm + (1/10) * area_norm
  ⟨max (5/100) emission_raw * emission_multiplier, bi_norm, fm_norm, frp_norm, area_norm⟩

/-- Embedding of `compute_loft` (backend/app/api/plume_endpoint.py, lines 53-55). -/
def compute_loft (bi_norm frp_norm loft_multiplier : ℚ) : ℚ :=
  clamp ((1/2 + (3/2) * ((6/10) * frp_norm + (4/10) * bi_norm)) * loft_multiplier) (3/10) 3

/-- Keyword arguments of `cone_polygon` (backend/app/api/plume_endpoint.py). -/
structure ConeArgs where
  lat : ℚ
  lon : ℚ
  wind_speed_m_s : ℚ
  wind_dir_from_deg : ℚ
  hours : ℚ
  burning_index : Option ℚ
  one_hr_fm : Option ℚ
  viirs_frp : Option ℚ
  area_m2 : Option ℚ
  viirs_confidence : Option ℚ
  emission_multiplier : ℚ
  diffusion_multiplier : ℚ
  loft_multiplier : ℚ
  suppress_small_fires : Bool
  n_segs : ℕ
deriving DecidableEq

/-- The emission factors computed at the top of `cone_polygon`. -/
def cone_emission (a : ConeArgs) : EmissionResult :=
  compute_emission_factor a.burning_index a.one_hr_fm a.viirs_frp a.area_m2
    a.emission_multiplier

/-- The loft factor computed in `cone_polygon`. -/
def cone_loft (a : ConeArgs) : ℚ :=
  compute_loft (cone_emission a).bi_norm (cone_emission a).frp_norm a.loft_multiplier

/-- The small-fire suppression test of `cone_polygon`
(backend/app/api/plume_endpoint.py, lines 85-88). -/
def suppress_small_check (a : ConeArgs) : Bool :=
  decide (((cone_emission a).emission < 8/100 ∧ pyOr a.viirs_frp 0 < 30
      ∧ pyOr a.area_m2 0 < 10000 ∧ pyOr a.viirs_confidence 0 < 40)
    ∨ (pyOr a.viirs_confidence 0 < 40 ∧ pyOr a.burning_index 0 < 40
      ∧ pyOr a.area_m2 0 < 5000))

/-- Whether `cone_polygon` takes the early `return None` at lines 84-89. -/
def cone_suppressed (a : ConeArgs) : Bool :=
  a.suppress_small_fires && suppress_small_check a

/-- Embedding of `base_distance_m` of `cone_polygon` (line 91). -/
def base_distance_m (a : ConeArgs) : ℚ :=
  max a.wind_speed_m_s 0 * 3600 * a.hours

/-- Embedding of `plume_length_m` of `cone_polygon` (line 92). -/
def plume_length_m (a : ConeArgs) : ℚ :=
  max 200 (base_distance_m a * (8/10 + (12/10) * (cone_emission a).emission) * cone_loft a)

/-- Embedding of `base_width_m` of `cone_polygon` (line 93). -/
def base_width_m (a : ConeArgs) : ℚ :=
  max 100 (plume_length_m a * (3/100))

/-- Embedding of `plume_width_m` of `cone_polygon` (lines 94-95), with
`math.sqrt` as `Real.sqrt`. -/
noncomputable def plume_width_m (a : ConeArgs) : ℝ :=
  (base_width_m a : ℝ)
    * (1 + (5/2) * Real.sqrt (a.hours : ℝ)
      * (6/10 + (4/10) * (1 - ((cone_emission a).fm_norm : ℝ))))
    * (a.diffusion_multiplier : ℝ)

/-- Python float `x % y` for positive `y`. -/
def qmod (x y : ℚ) : ℚ := x - y * ⌊x / y⌋

/-- Embedding of `bearing_to` of `cone_polygon` (line 97). -/
def bearing_to (a : ConeArgs) : ℚ := qmod (a.wind_dir_from_deg + 180) 360

/-- Embedding of `half_angle` of `cone_polygon` (line 98): the clamped opening
half-angle in degrees, with `math.atan`/`math.degrees` over `ℝ`. -/
noncomputable def half_angle_deg (a : ConeArgs) : ℝ :=
  max 2 (min 40 (Real.arctan ((plume_width_m a / 2) / max (plume_length_m a : ℝ) 1)
    * (180 / Real.pi)))

/-- The fan of `n_segs + 1` projected points of `cone_polygon` (lines 101-106);
`fwd lon lat angle dist` abstracts `geod.fwd` (pyproj, WGS84). -/
noncomputable def cone_fan_points (fwd : ℝ → ℝ → ℝ → ℝ → ℝ × ℝ) (a : ConeArgs) :
    List (ℝ × ℝ) :=
  (List.range (a.n_segs + 1)).map (fun i =>
    let frac : ℝ := (i : ℝ) / (a.n_segs : ℝ)
    let angle := (bearing_to a : ℝ) - half_angle_deg a + (2 * half_angle_deg a) * frac
    let r := (plume_length_m a : ℝ) * Real.rpow frac (9/10)
    fwd (a.lon : ℝ) (a.lat : ℝ) angle r)

/-- The full vertex list of `cone_polygon` (lines 100-107): the apex, the fan,
and the apex again. -/
noncomputable def cone_points (fwd : ℝ → ℝ → ℝ → ℝ → ℝ × ℝ) (a : ConeArgs) :
    List (ℝ × ℝ) :=
  ((a.lon : ℝ), (a.lat : ℝ)) :: (cone_fan_points fwd a ++ [((a.lon : ℝ), (a.lat : ℝ))])

/-- The metadata dict returned by `cone_polygon` (lines 113-122). -/
structure ConeMeta where
  plume_length_m : ℚ
  plume_width_m : ℝ
  emission_factor : ℚ
  loft : ℚ
  bi_norm : ℚ
  fm_norm : ℚ
  frp_norm : ℚ
  area_norm : ℚ

/-- The metadata of a successful `cone_polygon` call. -/
noncomputable def cone_meta (a : ConeArgs) : ConeMeta :=
  { plume_length_m := plume_length_m a
    plume_width_m := plume_width_m a
    emission_factor := (cone_emission a).emission
    loft := cone_loft a
    bi_norm := (cone_emission a).bi_norm
    fm_norm := (cone_emission a).fm_norm
    frp_norm := (cone_emission a).frp_norm
    area_norm := (cone_emission a).area_norm }

/-- Embedding of `cone_polygon` (backend/app/api/plume_endpoint.py, lines
57-122). `poly_valid` abstracts the shapely test
`poly.is_valid and not poly.is_empty` of lines 109-111. -/
noncomputable def cone_polygon (fwd : ℝ → ℝ → ℝ → ℝ → ℝ × ℝ)
    (poly_valid : List (ℝ × ℝ) → Bool) (a : ConeArgs) :
    Option (List (ℝ × ℝ) × ConeMeta) :=
  if cone_suppressed a then none
  else if poly_valid (cone_points fwd a) then some (cone_points fwd a, cone_meta a)
  else none

/-- A constant stand-in for the geodesic forward projection, used to
instantiate the abstract `fwd` parameter on concrete inputs. -/
def fwd_const : ℝ → ℝ → ℝ → ℝ → ℝ × ℝ := fun _ _ _ _ => (0, 0)

/-- A polygon-validity oracle that accepts everything, used to instantiate the
abstract `poly_valid` parameter on concrete inputs. -/
def poly_valid_always : List (ℝ × ℝ) → Bool := fun _ => true

/-- Concrete `cone_polygon` arguments with an accepted small diffusion
multiplier (0.5), short horizon (0.25 h) and dry provided fuel moisture. -/
def cone_args_narrow : ConeArgs :=
  { lat := 0, lon := 0, wind_speed_m_s := 0, wind_dir_from_deg := 0, hours := 1/4
    burning_index := none, one_hr_fm := some 1, viirs_frp := none, area_m2 := none
    viirs_confidence := none, emission_multiplier := 1, diffusion_multiplier := 1/2
    loft_multiplier := 1, suppress_small_fires := false, n_segs := 40 }

/-- The spec's first suppression scenario: confidence 10, frp 5, area 1000 m²,
burning index 10, `suppress_small_fires = true`, default multipliers. -/
def cone_args_small : ConeArgs :=
  { lat := 40, lon := -74, wind_speed_m_s := 2, wind_dir_from_deg := 180, hours := 1
    burning_index := some 10, one_hr_fm := none, viirs_frp := some 5
    area_m2 := some 1000, viirs_confidence := some 10, emission_multiplier := 1
    diffusion_multiplier := 1, loft_multiplier := 1, suppress_small_fires := true
    n_segs := 40 }

/-- The spec's second suppression scenario: confidence 90 and burning index 150,
other inputs unchanged. -/
def cone_args_big : ConeArgs :=
  { lat := 40, lon := -74, wind_speed_m_s := 2, wind_dir_from_deg := 180, hours := 1
    burning_index := some 150, one_hr_fm := none, viirs_frp := some 5
    area_m2 := some 1000, viirs_confidence := some 90, emission_multiplier := 1
    diffusion_multiplier := 1, loft_multiplier := 1, suppress_small_fires := true
    n_segs := 40 }

/-- Embedding of `PlumeRequest.validate_hours`
(backend/app/api/plume_endpoint.py, lines 166-176): Python
`sorted(set(h for h in v if h > 0))` is the insertion sort of the deduplicated
positive entries. -/
def validate_hours (v : List ℚ) : Except String (List ℚ) :=
  if v = [] then Except.error "hours cannot be empty"
  else
    let vv := ((v.filter (fun h => decide (0 < h))).dedup).insertionSort (· ≤ ·)
    if vv = [] then Except.error "at least one positive hour required"
    else if 12 < vv.length then Except.error "too many hours"
    else Except.ok vv

/-- Embedding of `CACHE_TTL_SECONDS` of backend/app/api/wildfire_map_endpoint.py
(line 43), in seconds. -/
def CACHE_TTL_SECONDS : ℚ := 3600

/-- A `collect_wildfire_context` result: the assembled context payload plus its
`cache_hit` flag. Deep copies are modelled by value semantics. -/
structure WildfireResult (α : Type) where
  payload : α
  cache_hit : Bool
deriving DecidableEq

/-- An entry of the `_wildfire_cache` dict for one key: the stored result and
its expiry time (seconds). -/
structure WildfireCacheEntry (α : Type) where
  data : WildfireResult α
  expires_at : ℚ
deriving DecidableEq

/-- Embedding of the result-cache discipline of `collect_wildfire_context`
(backend/app/api/wildfire_map_endpoint.py, lines 327-331 and 520-543) for one
fixed cache key. `compute` abstracts the assembly of the context from the
external fetches at the call time; the function returns the context handed to
the caller and the cache state for the key after the call. -/
def collect_wildfire_context_cached (α : Type) (compute : ℚ → α)
    (cache : Option (WildfireCacheEntry α)) (now : ℚ) :
    WildfireResult α × Option (WildfireCacheEntry α) :=
  match cache with
  | some cached =>
    if now < cached.expires_at then ({ cached.data with cache_hit := true }, some cached)
    else
      let result : WildfireResult α := ⟨compute now, false⟩
      (result, some ⟨result, now + CACHE_TTL_SECONDS⟩)
  | none =>
    let result : WildfireResult α := ⟨compute now, false⟩
    (result, some ⟨result, now + CACHE_TTL_SECONDS⟩)

/-- The per-detection fields of a FIRMS feature consumed by the collection loop
of `collect_wildfire_context`; `confidence` is already normalised to a percent
by `_confidence_to_percent`. -/
structure Detection where
  latitude : Option ℚ
  longitude : Option ℚ
  confidence : Option ℤ
deriving DecidableEq

/-- The filter applied to each feature by the loop of
`collect_wildfire_context` (lines 362-381): detections without coordinates are
skipped, then the true great-circle distance and the confidence threshold are
checked (a zero threshold is falsy in Python, which disables the confidence
filter). `dist_km` abstracts `_haversine_km(lat, lon, fire_lat, fire_lon)` at
the fixed query point. -/
def detection_passes (dist_km : ℚ → ℚ → ℚ) (radius_km : ℚ)
    (confidence_threshold : ℤ) (d : Detection) : Bool :=
  match d.latitude, d.longitude with
  | some fire_lat, some fire_lon =>
    !(decide (radius_km < dist_km fire_lat fire_lon))
      && !(decide (confidence_threshold ≠ 0)
        && (d.confidence.elim false (fun c => decide (c < confidence_threshold))))
  | _, _ => false

/-- The fields of a `fires` list entry built at lines 432-451 that the claims
are about; `γ` is the type of a plume-frame geometry. -/
structure FireEntry (γ : Type) where
  latitude : ℚ
  longitude : ℚ
  distance_km : ℚ
  confidence : Option ℤ
  plume_frames : List γ
deriving DecidableEq

/-- The `fires` entry for one passing detection, with the rounded distance
(line 436). `frames_of` abstracts the frames returned by
`compute_dynamic_plume` for the detection (lines 401-427). -/
def fire_entry (γ : Type) (dist_km : ℚ → ℚ → ℚ) (frames_of : Detection → List γ)
    (d : Detection) : FireEntry γ :=
  let fire_lat := d.latitude.getD 0
  let fire_lon := d.longitude.getD 0
  { latitude := fire_lat
    longitude := fire_lon
    distance_km := round2 (dist_km fire_lat fire_lon)
    confidence := d.confidence
    plume_frames := frames_of d }

/-- Ordering of fire entries by the key used at line 453. -/
def fire_entry_le (γ : Type) (x y : FireEntry γ) : Prop :=
  x.distance_km ≤ y.distance_km

instance (γ : Type) : DecidableRel (fire_entry_le γ) :=
  fun x y => inferInstanceAs (Decidable (x.distance_km ≤ y.distance_km))

/-- Embedding of the fire-collection part of `collect_wildfire_context`
(backend/app/api/wildfire_map_endpoint.py, lines 342-460): every passing
detection contributes an entry to `fires` and its plume-frame geometries to
`plume_geometries`; `fires` is then sorted by distance and truncated to
`max_fires`, while `plume_geometries` (the input of the `unary_union` merge at
line 459) is accumulated before the truncation. Returns the truncated sorted
`fires` list and the merge input list. -/
def collect_wildfire_fires (γ : Type) (dist_km : ℚ → ℚ → ℚ)
    (frames_of : Detection → List γ) (radius_km : ℚ) (confidence_threshold : ℤ)
    (max_fires : ℕ) (features : List Detection) : List (FireEntry γ) × List γ :=
  let passing := features.filter (detection_passes dist_km radius_km confidence_threshold)
  let fires := passing.map (fire_entry γ dist_km frames_of)
  let plume_geometries := passing.foldr (fun d acc => frames_of d ++ acc) []
  ((fires.insertionSort (fire_entry_le γ)).take max_fires, plume_geometries)

/-- A concrete distance oracle for demonstrations: the distance of a detection
is its latitude. -/
def demo_dist : ℚ → ℚ → ℚ := fun fire_lat _ => fire_lat

/-- A concrete frames oracle for demonstrations: one frame per detection,
tagged by its latitude. -/
def demo_frames : Detection → List ℚ := fun d => [d.latitude.getD 0]

/-- A detection 1 km from the query point (under `demo_dist`). -/
def demo_near : Detection := ⟨some 1, some 0, none⟩

/-- A detection 2 km from the query point (under `demo_dist`). -/
def demo_far : Detection := ⟨some 2, some 0, none⟩

/-! ## Theorems -/

theorem roundHalfEven_ge_floor (q : ℚ) : ⌊q⌋ ≤ roundHalfEven q := by
  unfold roundHalfEven
  split_ifs <;> omega

theorem roundHalfEven_le_floor_add_one (q : ℚ) : roundHalfEven q ≤ ⌊q⌋ + 1 := by
  unfold roundHalfEven
  split_ifs <;> omega

theorem roundHalfEven_mono {x y : ℚ} (h : x ≤ y) : roundHalfEven x ≤ roundHalfEven y := by
  have hf : ⌊x⌋ ≤ ⌊y⌋ := Int.floor_mono h
  rcases eq_or_lt_of_le hf with heq | hlt
  · unfold roundHalfEven
    rw [← heq]
    split_ifs <;> first | omega | linarith
  · unfold roundHalfEven
    split_ifs <;> omega

theorem round2_mono {x y : ℚ} (h : x ≤ y) : round2 x ≤ round2 y := by
  unfold round2
  have h1 : roundHalfEven (x * 100) ≤ roundHalfEven (y * 100) :=
    roundHalfEven_mono (by linarith)
  have h2 : ((roundHalfEven (x * 100) : ℤ) : ℚ) ≤ ((roundHalfEven (y * 100) : ℤ) : ℚ) := by
    exact_mod_cast h1
  linarith

/-- Claim C1, counterexample: the score is not clamped into [0,100]; with a
finite non-negative `ignition_component = 1000` (and every other field absent)
the returned score exceeds 100. -/
theorem risk_score_not_clamped_counterexample :
    100 < calculate_fire_risk_score ⟨none, some 1000, none, none, none⟩ ⟨none, none⟩ := by
  simp only [calculate_fire_risk_score, Option.getD_some, Option.getD_none]
  norm_num [round2, roundHalfEven, min_def, max_def]

/-- Claim C1 (amended): no clamp is applied, but whenever the observation
fields are non-negative and additionally `ignition_component ≤ 100` and
`kbdi ≤ 800` (bounds under which every weighted term is at most its weight
times 100), the returned risk score lies in [0,100]. -/
theorem risk_score_bounds (n : NfdrsData) (w : WeatherData)
    (hbi : 0 ≤ n.burning_index.getD 0)
    (hic0 : 0 ≤ n.ignition_component.getD 0)
    (hic1 : n.ignition_component.getD 0 ≤ 100)
    (hsc : 0 ≤ n.spread_component.getD 0)
    (hkb0 : 0 ≤ n.kbdi.getD 0)
    (hkb1 : n.kbdi.getD 0 ≤ 800)
    (hfm : 0 ≤ n.one_hr_tl_fuel_moisture.getD 30)
    (hws : 0 ≤ w.wind_speed.getD 0)
    (hrh : 0 ≤ w.relative_humidity.getD 50) :
    0 ≤ calculate_fire_risk_score n w ∧ calculate_fire_risk_score n w ≤ 100 := by
  simp only [calculate_fire_risk_score]
  set b := n.burning_index.getD 0 with hb
  set ic := n.ignition_component.getD 0 with hic
  set sc := n.spread_component.getD 0 with hsc2
  set kb := n.kbdi.getD 0 with hkb
  set fm := n.one_hr_tl_fuel_moisture.getD 30 with hfm2
  set ws := w.wind_speed.getD 0 with hws2
  set rh := w.relative_humidity.getD 50 with hrh2
  have t1a : (0:ℚ) ≤ min (b/2) 100 := le_min (by linarith) (by norm_num)
  have t1b : min (b/2) 100 ≤ 100 := min_le_right _ _
  have t3a : (0:ℚ) ≤ min sc 100 := le_min hsc (by norm_num)
  have t3b : min sc 100 ≤ 100 := min_le_right _ _
  have hfm3 : (0:ℚ) ≤ fm * (333/100) := mul_nonneg hfm (by norm_num)
  have t5a : (0:ℚ) ≤ max 0 (100 - fm * (333/100)) := le_max_left _ _
  have t5b : max 0 (100 - fm * (333/100)) ≤ 100 := max_le (by norm_num) (by linarith)
  have hws3 : (0:ℚ) ≤ ws * 3 := mul_nonneg hws (by norm_num)
  have t6a : (0:ℚ) ≤ min (ws * 3) 100 := le_min hws3 (by norm_num)
  have t6b : min (ws * 3) 100 ≤ 100 := min_le_right _ _
  have t7a : (0:ℚ) ≤ max 0 (100 - rh) := le_max_left _ _
  have t7b : max 0 (100 - rh) ≤ 100 := max_le (by norm_num) (by linarith)
  constructor
  · have h0 : round2 0 ≤ round2 (min (b/2) 100 * (25/100) + ic * (20/100)
        + min sc 100 * (15/100) + kb / 8 * (10/100)
        + max 0 (100 - fm * (333/100)) * (15/100) + min (ws * 3) 100 * (10/100)
        + max 0 (100 - rh) * (5/100)) := round2_mono (by linarith)
    have hz : round2 0 = 0 := by norm_num [round2, roundHalfEven]
    linarith [h0, hz.symm.le]
  · have h0 : round2 (min (b/2) 100 * (25/100) + ic * (20/100)
        + min sc 100 * (15/100) + kb / 8 * (10/100)
        + max 0 (100 - fm * (333/100)) * (15/100) + min (ws * 3) 100 * (10/100)
        + max 0 (100 - rh) * (5/100)) ≤ round2 100 := round2_mono (by linarith)
    have hh : round2 100 = 100 := by norm_num [round2, roundHalfEven]
    linarith

/-- Witness for `risk_score_bounds`: all fields absent, so every default is
used; the hypotheses hold and the score lies in [0,100]. -/
theorem risk_score_bounds_witness :
    0 ≤ calculate_fire_risk_score ⟨none, none, none, none, none⟩ ⟨none, none⟩
      ∧ calculate_fire_risk_score ⟨none, none, none, none, none⟩ ⟨none, none⟩ ≤ 100 :=
  risk_score_bounds ⟨none, none, none, none, none⟩ ⟨none, none⟩
    (by decide) (by decide) (by decide) (by decide) (by decide) (by decide)
    (by decide) (by decide) (by decide)

/-- Claim C2: the risk score is exactly the spec's weighted sum with the
documented defaults, rounded to two decimals, and the discrete level is
assigned by the bucket edges 20/40/60/80. -/
theorem risk_score_matches_spec :
    (∀ (n : NfdrsData) (w : WeatherData),
      calculate_fire_risk_score n w = risk_score_spec_formula n w)
    ∧ (∀ s : ℚ, assign_risk_level s = risk_level_spec_buckets s) :=
  ⟨fun _ _ => rfl, fun _ => rfl⟩

/-- Claim C3: holding all other inputs fixed, the risk score is non-decreasing
in burning index, ignition component, spread component, KBDI and wind speed,
and non-increasing in relative humidity and 1-hour fuel moisture. -/
theorem risk_score_monotone
    (bi bi' ic ic' sc sc' kb kb' fm fm' ws ws' rh rh' : ℚ)
    (hbi : bi ≤ bi') (hic : ic ≤ ic') (hsc : sc ≤ sc') (hkb : kb ≤ kb')
    (hfm : fm' ≤ fm) (hws : ws ≤ ws') (hrh : rh' ≤ rh) :
    calculate_fire_risk_score ⟨some bi, some ic, some sc, some kb, some fm⟩
        ⟨some ws, some rh⟩
      ≤ calculate_fire_risk_score ⟨some bi', some ic', some sc', some kb', some fm'⟩
        ⟨some ws', some rh'⟩ := by
  simp only [calculate_fire_risk_score, Option.getD_some]
  apply round2_mono
  have t1 : min (bi/2) 100 ≤ min (bi'/2) 100 := min_le_min (by linarith) le_rfl
  have t3 : min sc 100 ≤ min sc' 100 := min_le_min hsc le_rfl
  have t5 : max 0 (100 - fm * (333/100)) ≤ max 0 (100 - fm' * (333/100)) :=
    max_le_max le_rfl (by linarith)
  have t6 : min (ws * 3) 100 ≤ min (ws' * 3) 100 := min_le_min (by linarith) le_rfl
  have t7 : max 0 (100 - rh) ≤ max 0 (100 - rh') := max_le_max le_rfl (by linarith)
  linarith

theorem clamp_nonneg_of (v hi : ℚ) : 0 ≤ clamp v 0 hi := le_max_left 0 _

theorem clamp_le_of (v hi : ℚ) (h : 0 ≤ hi) : clamp v 0 hi ≤ hi :=
  max_le h (min_le_left _ _)

theorem fm_norm_le_one (b f p ar m : ℚ) :
    (compute_emission_factor (some b) (some f) (some p) (some ar) m).fm_norm ≤ 1 := by
  simp only [compute_emission_factor]
  have := clamp_nonneg_of (pyOr (some f) 30 / 100) 1
  linarith

theorem cone_fm_norm_le_one (a : ConeArgs) : (cone_emission a).fm_norm ≤ 1 := by
  simp only [cone_emission, compute_emission_factor]
  have := clamp_nonneg_of (pyOr a.one_hr_fm 30 / 100) 1
  linarith

theorem cone_polygon_some_inv (fwd : ℝ → ℝ → ℝ → ℝ → ℝ × ℝ)
    (poly_valid : List (ℝ × ℝ) → Bool) (a : ConeArgs) (pts : List (ℝ × ℝ))
    (m : ConeMeta) (h : cone_polygon fwd poly_valid a = some (pts, m)) :
    pts = cone_points fwd a ∧ m = cone_meta a := by
  unfold cone_polygon at h
  split_ifs at h
  cases h
  exact ⟨rfl, rfl⟩

/-- Witness for `risk_score_monotone` at concrete inputs. -/
theorem risk_score_monotone_witness :
    calculate_fire_risk_score ⟨some 10, some 20, some 30, some 40, some 8⟩
        ⟨some 5, some 60⟩
      ≤ calculate_fire_risk_score ⟨some 80, some 60, some 50, some 400, some 6⟩
        ⟨some 10, some 30⟩ :=
  risk_score_monotone 10 80 20 60 30 50 40 400 8 6 5 10 60 30
    (by norm_num) (by norm_num) (by norm_num) (by norm_num)
    (by norm_num) (by norm_num) (by norm_num)

theorem cone_suppressed_narrow : cone_suppressed cone_args_narrow = false := rfl

theorem cone_polygon_narrow_eq :
    cone_polygon fwd_const poly_valid_always cone_args_narrow
      = some (cone_points fwd_const cone_args_narrow, cone_meta cone_args_narrow) := by
  simp [cone_polygon, cone_suppressed_narrow, poly_valid_always]

theorem narrow_fm_norm : (cone_emission cone_args_narrow).fm_norm = 99/100 := by
  norm_num [cone_emission, compute_emission_factor, cone_args_narrow, clamp, pyOr,
    min_def, max_def]

theorem narrow_plume_length : plume_length_m cone_args_narrow = 200 := by
  norm_num [plume_length_m, base_distance_m, cone_args_narrow, max_def]

theorem narrow_base_width : base_width_m cone_args_narrow = 100 := by
  norm_num [base_width_m, narrow_plume_length, max_def]

theorem narrow_plume_width : (cone_meta cone_args_narrow).plume_width_m = 351/4 := by
  simp only [cone_meta, plume_width_m, narrow_base_width, narrow_fm_norm]
  have hh : ((cone_args_narrow.hours : ℚ) : ℝ) = 1/4 := by norm_num [cone_args_narrow]
  have hd : ((cone_args_narrow.diffusion_multiplier : ℚ) : ℝ) = 1/2 := by
    norm_num [cone_args_narrow]
  rw [hh, hd, show (1:ℝ)/4 = (1/2)^2 by norm_num,
    Real.sqrt_sq (by norm_num : (0:ℝ) ≤ 1/2)]
  push_cast
  norm_num

/-- Claim C4, counterexample: with the accepted diffusion multiplier 0.5, a
positive horizon of 0.25 h and provided fuel moisture 1, the successful cone's
metadata has `plume_width_m = 87.75 < 100`. -/
theorem plume_width_lower_bound_counterexample :
    cone_polygon fwd_const poly_valid_always cone_args_narrow
      = some (cone_points fwd_const cone_args_narrow, cone_meta cone_args_narrow)
    ∧ 0 < cone_args_narrow.hours
    ∧ (cone_meta cone_args_narrow).plume_width_m < 100 := by
  refine ⟨cone_polygon_narrow_eq, by norm_num [cone_args_narrow], ?_⟩
  rw [narrow_plume_width]
  norm_num

/-- Claim C4 (amended): for every successful `cone_polygon` call,
`plume_length_m ≥ 200`, and `plume_width_m ≥ 100 * diffusion_multiplier`
(so the spec's `plume_width_m ≥ 100` holds exactly when the diffusion
multiplier is at least 1; the accepted range starts at 0.5, where only
`plume_width_m ≥ 50` is guaranteed). -/
theorem plume_dimension_bounds (fwd : ℝ → ℝ → ℝ → ℝ → ℝ × ℝ)
    (poly_valid : List (ℝ × ℝ) → Bool) (a : ConeArgs) (pts : List (ℝ × ℝ))
    (m : ConeMeta) (h : cone_polygon fwd poly_valid a = some (pts, m))
    (hd : 0 ≤ a.diffusion_multiplier) :
    200 ≤ m.plume_length_m
    ∧ 100 * ((a.diffusion_multiplier : ℚ) : ℝ) ≤ m.plume_width_m := by
  obtain ⟨-, hm⟩ := cone_polygon_some_inv fwd poly_valid a pts m h
  subst hm
  constructor
  · simp only [cone_meta, plume_length_m]
    exact le_max_left _ _
  · simp only [cone_meta, plume_width_m]
    have hbq : (100:ℚ) ≤ base_width_m a := by
      simp only [base_width_m]
      exact le_max_left _ _
    have hb : (100:ℝ) ≤ (base_width_m a : ℝ) := by exact_mod_cast hbq
    have hfmq : (cone_emission a).fm_norm ≤ 1 := cone_fm_norm_le_one a
    have hfm : ((cone_emission a).fm_norm : ℝ) ≤ 1 := by exact_mod_cast hfmq
    have hs : (0:ℝ) ≤ Real.sqrt ((a.hours : ℚ) : ℝ) := Real.sqrt_nonneg _
    have hterm : (0:ℝ) ≤ Real.sqrt ((a.hours : ℚ) : ℝ)
        * (6/10 + (4/10) * (1 - ((cone_emission a).fm_norm : ℝ))) :=
      mul_nonneg hs (by linarith)
    have hfac : (1:ℝ) ≤ 1 + (5/2) * Real.sqrt ((a.hours : ℚ) : ℝ)
        * (6/10 + (4/10) * (1 - ((cone_emission a).fm_norm : ℝ))) := by nlinarith
    have hdr : (0:ℝ) ≤ ((a.diffusion_multiplier : ℚ) : ℝ) := by exact_mod_cast hd
    exact mul_le_mul_of_nonneg_right
      (le_trans hb (le_mul_of_one_le_right (by linarith) hfac)) hdr

/-- Witness for `plume_dimension_bounds` at the concrete narrow cone. -/
theorem plume_dimension_bounds_witness :
    200 ≤ (cone_meta cone_args_narrow).plume_length_m
    ∧ 100 * ((cone_args_narrow.diffusion_multiplier : ℚ) : ℝ)
        ≤ (cone_meta cone_args_narrow).plume_width_m :=
  plume_dimension_bounds fwd_const poly_valid_always cone_args_narrow _ _
    cone_polygon_narrow_eq (by norm_num [cone_args_narrow])

/-- Claim C5, counterexample: with every driver provided and `one_hr_fm = 0`,
the code's `or`-defaulting treats 0.0 as missing, so `FM_norm = 0.7`, not 1. -/
theorem fm_norm_zero_input_counterexample :
    (compute_emission_factor (some 10) (some 0) (some 5) (some 100) 1).fm_norm = 7/10
    ∧ (compute_emission_factor (some 10) (some 0) (some 5) (some 100) 1).fm_norm ≠ 1 := by
  refine ⟨?_, ?_⟩ <;>
    norm_num [compute_emission_factor, pyOr, clamp, min_def, max_def]

/-- Claim C5 (amended): the four drivers are normalised exactly as specified
for every provided nonzero value (and for `burning_index`, `viirs_frp`,
`area_m2` also at 0, since their default is 0); a provided `one_hr_fm = 0` is
falsy in Python, defaults to 30, and yields `FM_norm = 0.7` instead of 1. -/
theorem emission_normalization (b f p ar m : ℚ) :
    (compute_emission_factor (some b) (some f) (some p) (some ar) m).bi_norm
        = clamp (b / 200) 0 1
    ∧ (f ≠ 0 → (compute_emission_factor (some b) (some f) (some p) (some ar) m).fm_norm
        = 1 - clamp (f / 100) 0 1)
    ∧ (f = 0 → (compute_emission_factor (some b) (some f) (some p) (some ar) m).fm_norm
        = 7/10)
    ∧ (compute_emission_factor (some b) (some f) (some p) (some ar) m).frp_norm
        = clamp (p / 500) 0 1
    ∧ (compute_emission_factor (some b) (some f) (some p) (some ar) m).area_norm
        = clamp (ar / 1000000) 0 1 := by
  refine ⟨?_, fun hf => ?_, fun hf => ?_, ?_, ?_⟩
  · rcases eq_or_ne b 0 with hb | hb <;> simp [compute_emission_factor, pyOr, hb]
  · simp [compute_emission_factor, pyOr, hf]
  · subst hf
    norm_num [compute_emission_factor, pyOr, clamp, min_def, max_def]
  · rcases eq_or_ne p 0 with hp | hp <;> simp [compute_emission_factor, pyOr, hp]
  · rcases eq_or_ne ar 0 with ha | ha <;> simp [compute_emission_factor, pyOr, ha]

/-- Witness for `emission_normalization` with a provided nonzero fuel
moisture. -/
theorem emission_normalization_witness :
    (compute_emission_factor (some 10) (some 5) (some 20) (some 100) 1).fm_norm
      = 1 - clamp (5 / 100) 0 1 :=
  (emission_normalization 10 5 20 100 1).2.1 (by norm_num)

theorem cone_suppressed_small_true : cone_suppressed cone_args_small = true := by
  have hc : suppress_small_check cone_args_small = true := by
    simp only [suppress_small_check, decide_eq_true_eq]
    right
    refine ⟨?_, ?_, ?_⟩ <;> norm_num [pyOr, cone_args_small]
  unfold cone_suppressed
  rw [hc, Bool.and_true]
  rfl

theorem cone_suppressed_big_false : cone_suppressed cone_args_big = false := by
  have hc : suppress_small_check cone_args_big = false := by
    simp only [suppress_small_check, decide_eq_false_iff_not]
    norm_num [pyOr, cone_args_big]
  unfold cone_suppressed
  rw [hc, Bool.and_false]

theorem cone_polygon_big_eq (fwd : ℝ → ℝ → ℝ → ℝ → ℝ × ℝ)
    (poly_valid : List (ℝ × ℝ) → Bool)
    (hpv : poly_valid (cone_points fwd cone_args_big) = true) :
    cone_polygon fwd poly_valid cone_args_big
      = some (cone_points fwd cone_args_big, cone_meta cone_args_big) := by
  simp [cone_polygon, cone_suppressed_big_false, hpv]

/-- Claim C6: a cone is suppressed exactly when `suppress_small_fires` holds
and either (emission < 0.08 and frp < 30 and area < 10000 and confidence < 40)
or (confidence < 40 and burning index < 40 and area < 5000); the spec's small
fire (confidence 10, frp 5, area 1000, burning index 10) is suppressed for
every projection and validity oracle, its confident strong variant
(confidence 90, burning index 150) returns a polygon whenever the geometry is
valid, and a suppressed cone always returns nothing. -/
theorem cone_suppression_rule :
    (∀ a : ConeArgs, cone_suppressed a = true ↔ (a.suppress_small_fires = true
      ∧ (((cone_emission a).emission < 8/100 ∧ pyOr a.viirs_frp 0 < 30
          ∧ pyOr a.area_m2 0 < 10000 ∧ pyOr a.viirs_confidence 0 < 40)
        ∨ (pyOr a.viirs_confidence 0 < 40 ∧ pyOr a.burning_index 0 < 40
          ∧ pyOr a.area_m2 0 < 5000))))
    ∧ (∀ (fwd : ℝ → ℝ → ℝ → ℝ → ℝ × ℝ) (poly_valid : List (ℝ × ℝ) → Bool),
        cone_polygon fwd poly_valid cone_args_small = none)
    ∧ (∀ (fwd : ℝ → ℝ → ℝ → ℝ → ℝ × ℝ) (poly_valid : List (ℝ × ℝ) → Bool),
        poly_valid (cone_points fwd cone_args_big) = true →
        cone_polygon fwd poly_valid cone_args_big ≠ none)
    ∧ (∀ (fwd : ℝ → ℝ → ℝ → ℝ → ℝ × ℝ) (poly_valid : List (ℝ × ℝ) → Bool)
        (a : ConeArgs), cone_suppressed a = true →
        cone_polygon fwd poly_valid a = none) := by
  refine ⟨fun a => ?_, fun fwd poly_valid => ?_, fun fwd poly_valid hpv => ?_,
    fun fwd poly_valid a ha => ?_⟩
  · simp [cone_suppressed, suppress_small_check, Bool.and_eq_true, decide_eq_true_eq]
  · simp [cone_polygon, cone_suppressed_small_true]
  · simp [cone_polygon_big_eq fwd poly_valid hpv]
  · simp [cone_polygon, ha]

/-- Witness for `cone_suppression_rule` on the two concrete scenarios. -/
theorem cone_suppression_rule_witness :
    cone_suppressed cone_args_small = true
    ∧ cone_polygon fwd_const poly_valid_always cone_args_small = none
    ∧ cone_polygon fwd_const poly_valid_always cone_args_big ≠ none :=
  ⟨(cone_suppression_rule.1 cone_args_small).mpr
      ⟨rfl, Or.inr (by norm_num [pyOr, cone_args_small])⟩,
    cone_suppression_rule.2.1 fwd_const poly_valid_always,
    cone_suppression_rule.2.2.1 fwd_const poly_valid_always rfl⟩

/-- Claim C7: the first and last vertices of every polygon returned by
`cone_polygon` both equal the ignition apex `(lon, lat)`. -/
theorem cone_polygon_ring_closed (fwd : ℝ → ℝ → ℝ → ℝ → ℝ × ℝ)
    (poly_valid : List (ℝ × ℝ) → Bool) (a : ConeArgs) (pts : List (ℝ × ℝ))
    (m : ConeMeta) (h : cone_polygon fwd poly_valid a = some (pts, m)) :
    pts.head? = some ((a.lon : ℝ), (a.lat : ℝ))
    ∧ pts.getLast? = some ((a.lon : ℝ), (a.lat : ℝ)) := by
  obtain ⟨hp, -⟩ := cone_polygon_some_inv fwd poly_valid a pts m h
  subst hp
  simp only [cone_points]
  refine ⟨rfl, ?_⟩
  rw [← List.cons_append]
  exact List.getLast?_concat _

/-- Witness for `cone_polygon_ring_closed` at the confident strong fire. -/
theorem cone_polygon_ring_closed_witness :
    (cone_points fwd_const cone_args_big).head?
        = some ((cone_args_big.lon : ℝ), (cone_args_big.lat : ℝ))
    ∧ (cone_points fwd_const cone_args_big).getLast?
        = some ((cone_args_big.lon : ℝ), (cone_args_big.lat : ℝ)) :=
  cone_polygon_ring_closed fwd_const poly_valid_always cone_args_big _ _
    (cone_polygon_big_eq fwd_const poly_valid_always rfl)

/-- Claim C8: a validated `hours` list is strictly sorted (hence deduplicated),
strictly positive and has at most 12 entries; an empty list, a list with no
positive entry, and a list with more than 12 distinct positive entries are all
rejected before any computation. -/
theorem validate_hours_spec :
    (∀ (v out : List ℚ), validate_hours v = Except.ok out →
      out.Sorted (· < ·) ∧ (∀ h ∈ out, 0 < h) ∧ out.length ≤ 12)
    ∧ validate_hours [] = Except.error "hours cannot be empty"
    ∧ (∀ v : List ℚ, v ≠ [] → (∀ h ∈ v, ¬ 0 < h) →
        validate_hours v = Except.error "at least one positive hour required")
    ∧ (∀ v : List ℚ, 12 < ((v.filter (fun h => decide (0 < h))).dedup).length →
        ∃ msg, validate_hours v = Except.error msg) := by
  refine ⟨fun v out hok => ?_, rfl, fun v hne hv => ?_, fun v hlen => ?_⟩
  · simp only [validate_hours] at hok
    split_ifs at hok with h1 h2 h3
    simp only [Except.ok.injEq] at hok
    subst hok
    have hnd : ((v.filter (fun h => decide (0 < h))).dedup).Nodup := List.nodup_dedup _
    have hperm := List.perm_insertionSort (α := ℚ) (· ≤ ·)
      ((v.filter (fun h => decide (0 < h))).dedup)
    refine ⟨?_, fun h hmem => ?_, ?_⟩
    · exact (List.sorted_insertionSort _ _).lt_of_le (hperm.nodup_iff.mpr hnd)
    · have hmem2 : h ∈ (v.filter (fun h => decide (0 < h))).dedup :=
        (List.mem_insertionSort _).mp hmem
      have hmem3 : h ∈ v.filter (fun h => decide (0 < h)) := List.mem_dedup.mp hmem2
      exact of_decide_eq_true (List.mem_filter.mp hmem3).2
    · omega
  · have hf : v.filter (fun h => decide (0 < h)) = [] :=
      List.filter_eq_nil_iff.mpr (fun a ha => by simpa using hv a ha)
    simp [validate_hours, hne, hf]
  · simp only [validate_hours]
    split_ifs with h1 h2 h3
    · exact ⟨_, rfl⟩
    · exact ⟨_, rfl⟩
    · exact ⟨_, rfl⟩
    · exfalso
      have hlen2 := (List.perm_insertionSort (α := ℚ) (· ≤ ·)
        ((v.filter (fun h => decide (0 < h))).dedup)).length_eq
      omega

/-- Witness for `validate_hours_spec`: a concrete accepted request. -/
theorem validate_hours_spec_witness :
    validate_hours [2, 1, 1, 0] = Except.ok [1, 2]
    ∧ (([1, 2] : List ℚ).Sorted (· < ·) ∧ (∀ h ∈ ([1, 2] : List ℚ), 0 < h)
        ∧ ([1, 2] : List ℚ).length ≤ 12) :=
  have hok : validate_hours [2, 1, 1, 0] = Except.ok [1, 2] := rfl
  ⟨hok, validate_hours_spec.1 [2, 1, 1, 0] [1, 2] hok⟩

/-- Claim C9: two `collect_wildfire_context` calls at the same key within the
TTL window return the same payload (fires, summary, and the rest of the
context), with `cache_hit = false` on the first and `cache_hit = true` on the
second; the cached entry is not modified by the read (deep copies are modelled
by value semantics, so mutating a returned context cannot affect the cache). -/
theorem wildfire_cache_idempotent (α : Type) (compute : ℚ → α) (t1 t2 : ℚ)
    (hts : t2 < t1 + CACHE_TTL_SECONDS) :
    (collect_wildfire_context_cached α compute none t1).1.payload
        = (collect_wildfire_context_cached α compute
            (collect_wildfire_context_cached α compute none t1).2 t2).1.payload
    ∧ (collect_wildfire_context_cached α compute none t1).1.cache_hit = false
    ∧ (collect_wildfire_context_cached α compute
        (collect_wildfire_context_cached α compute none t1).2 t2).1.cache_hit = true
    ∧ (collect_wildfire_context_cached α compute
        (collect_wildfire_context_cached α compute none t1).2 t2).2
      = (collect_wildfire_context_cached α compute none t1).2 := by
  simp [collect_wildfire_context_cached, hts]

/-- Witness for `wildfire_cache_idempotent` with a constant computation. -/
theorem wildfire_cache_idempotent_witness :
    (collect_wildfire_context_cached ℕ (fun _ => 7) none 0).1.payload
        = (collect_wildfire_context_cached ℕ (fun _ => 7)
            (collect_wildfire_context_cached ℕ (fun _ => 7) none 0).2 1).1.payload
    ∧ (collect_wildfire_context_cached ℕ (fun _ => 7) none 0).1.cache_hit = false
    ∧ (collect_wildfire_context_cached ℕ (fun _ => 7)
        (collect_wildfire_context_cached ℕ (fun _ => 7) none 0).2 1).1.cache_hit = true
    ∧ (collect_wildfire_context_cached ℕ (fun _ => 7)
        (collect_wildfire_context_cached ℕ (fun _ => 7) none 0).2 1).2
      = (collect_wildfire_context_cached ℕ (fun _ => 7) none 0).2 :=
  wildfire_cache_idempotent ℕ (fun _ => 7) 0 1 (by norm_num [CACHE_TTL_SECONDS])

theorem mem_foldr_frames (γ : Type) (frames_of : Detection → List γ)
    (l : List Detection) (d : Detection) (g : γ) (hd : d ∈ l)
    (hg : g ∈ frames_of d) :
    g ∈ l.foldr (fun x acc => frames_of x ++ acc) [] := by
  induction l with
  | nil => cases hd
  | cons x xs ih =>
    rcases List.mem_cons.mp hd with h | h
    · subst h
      exact List.mem_append_left _ hg
    · exact List.mem_append_right _ (ih h)

/-- Claim C10: the merge input accumulates the plume geometries of every
detection that passes the distance and confidence filters, before the
`max_fires` truncation of the sorted `fires` list; concretely, with two
passing detections and `max_fires = 1`, the far detection's geometry is in the
merge input while the returned `fires` list holds only the near entry. -/
theorem merged_plume_includes_truncated :
    (∀ (γ : Type) (dist_km : ℚ → ℚ → ℚ) (frames_of : Detection → List γ)
      (radius_km : ℚ) (confidence_threshold : ℤ) (max_fires : ℕ)
      (features : List Detection) (d : Detection),
      d ∈ features.filter (detection_passes dist_km radius_km confidence_threshold) →
      ∀ g ∈ frames_of d,
        g ∈ (collect_wildfire_fires γ dist_km frames_of radius_km
          confidence_threshold max_fires features).2)
    ∧ (collect_wildfire_fires ℚ demo_dist demo_frames 10 0 1
        [demo_near, demo_far]).2 = [1, 2]
    ∧ (collect_wildfire_fires ℚ demo_dist demo_frames 10 0 1
        [demo_near, demo_far]).1 = [⟨1, 0, 1, none, [1]⟩] := by
  refine ⟨fun γ dist_km frames_of radius_km ct max_fires features d hd g hg => ?_, ?_, ?_⟩
  · simp only [collect_wildfire_fires]
    exact mem_foldr_frames γ frames_of _ d g hd hg
  · rfl
  · have hpass : ([demo_near, demo_far].filter (detection_passes demo_dist 10 0))
        = [demo_near, demo_far] := rfl
    have h1 : round2 1 = 1 := by norm_num [round2, roundHalfEven]
    have h2 : round2 2 = 2 := by norm_num [round2, roundHalfEven]
    have hfire1 : fire_entry ℚ demo_dist demo_frames demo_near
        = ⟨1, 0, 1, none, [1]⟩ := by
      simp [fire_entry, demo_dist, demo_frames, demo_near, h1]
    have hfire2 : fire_entry ℚ demo_dist demo_frames demo_far
        = ⟨2, 0, 2, none, [2]⟩ := by
      simp [fire_entry, demo_dist, demo_frames, demo_far, h2]
    simp only [collect_wildfire_fires, hpass, List.map_cons, List.map_nil,
      hfire1, hfire2, List.insertionSort, List.orderedInsert]
    rw [if_pos (show fire_entry_le ℚ ⟨1, 0, 1, none, [1]⟩ ⟨2, 0, 2, none, [2]⟩ by
      norm_num [fire_entry_le])]
    rfl

/-- Witness for `merged_plume_includes_truncated`: the far detection's frame
is in the merge input. -/
theorem merged_plume_includes_truncated_witness :
    (2:ℚ) ∈ (collect_wildfire_fires ℚ demo_dist demo_frames 10 0 1
      [demo_near, demo_far]).2 :=
  merged_plume_includes_truncated.1 ℚ demo_dist demo_frames 10 0 1
    [demo_near, demo_far] demo_far (by decide) 2 (by decide)
